import Mathlib

/-!
Verification of the DaimaPay airtime gateway (mobile-money payment to airtime
dispatch bridge).  The JavaScript sources are shallowly embedded: strings are
`List Char`, JavaScript numbers are `ℚ`, Firestore documents are fields of
explicit state records, and every fallible external call is parameterised by
an oracle describing its outcome (`Except JsErr _`), so a `catch` branch in
the source becomes a `match … | .error _ => …` branch here.
-/

set_option maxRecDepth 8000

namespace DaimaPay

/-! ### String helpers (JavaScript `trim`, `replace(/^(\+254|254)/, '0')`) -/

/-- JavaScript `String.prototype.trim`: drop whitespace at both ends. -/
def trimL (s : List Char) : List Char :=
  ((s.dropWhile Char.isWhitespace).reverse.dropWhile Char.isWhitespace).reverse

/-- `phoneNumber.replace(/^(\+254|254)/, '0')`: replace one leading
international code, `+254` being tried before `254`, with `0`. -/
def strip254 (s : List Char) : List Char :=
  if s.take 4 = ['+', '2', '5', '4'] then '0' :: s.drop 4
  else if s.take 3 = ['2', '5', '4'] then '0' :: s.drop 3
  else s

/-! ### Carrier classifier (`detectCarrier`, the five-set variant) -/

inductive Carrier where
  | safaricom | airtel | telkom | equitel | faiba | unknown
deriving DecidableEq, Repr

/-- The `safaricom` prefix set from the source. -/
def safaricomSet : List (List Char) :=
  (["110", "111", "112", "113", "114", "115", "116", "117", "118", "119",
    "700", "701", "702", "703", "704", "705", "706", "707", "708", "709",
    "710", "711", "712", "713", "714", "715", "716", "717", "718", "719",
    "720", "721", "722", "723", "724", "725", "726", "727", "728", "729",
    "740", "741", "742", "743", "744", "745", "746", "748", "749",
    "757", "758", "759",
    "768", "769",
    "790", "791", "792", "793", "794", "795", "796", "797", "798", "799"]).map String.data

/-- The `airtel` prefix set from the source. -/
def airtelSet : List (List Char) :=
  (["100", "101", "102", "103", "104", "105", "106", "107", "108", "109",
    "730", "731", "732", "733", "734", "735", "736", "737", "738", "739",
    "750", "751", "752", "753", "754", "755", "756",
    "780", "781", "782", "783", "784", "785", "786", "787", "788", "789"]).map String.data

/-- The `telkom` prefix set from the source. -/
def telkomSet : List (List Char) :=
  (["770", "771", "772", "773", "774", "775", "776", "777", "778", "779"]).map String.data

/-- The `equitel` prefix set from the source. -/
def equitelSet : List (List Char) :=
  (["764", "765", "766", "767"]).map String.data

/-- The `faiba` prefix set from the source. -/
def faibaSet : List (List Char) :=
  (["747"]).map String.data

/-- The chain of set lookups at the end of `detectCarrier`. -/
def carrierOfPre (p3 : List Char) : Carrier :=
  if p3 ∈ safaricomSet then .safaricom
  else if p3 ∈ airtelSet then .airtel
  else if p3 ∈ telkomSet then .telkom
  else if p3 ∈ equitelSet then .equitel
  else if p3 ∈ faibaSet then .faiba
  else .unknown

/-- `detectCarrier` from the source: normalise by stripping a leading
country code and trimming, require length ten and a leading `'0'`
(the source checks `normalized.length !== 10 || !normalized.startsWith('0')`),
then look up the three characters after the `'0'`. -/
def detectCarrier (phoneNumber : List Char) : Carrier :=
  let normalized := trimL (strip254 phoneNumber)
  if normalized.length ≠ 10 ∨ normalized.take 1 ≠ ['0'] then .unknown
  else carrierOfPre ((normalized.drop 1).take 3)

/-! ### Dealer-direct phone normaliser (`normalizeReceiverPhoneNumber`) -/

/-- Result of the normaliser together with whether the
`logger.warn … Returning as is` branch was taken. -/
structure NormalizeResult where
  result : List Char
  warned : Bool
deriving DecidableEq, Repr

/-- `normalizeReceiverPhoneNumber` from the source: strip the country code and
trim; a ten-character `0…` form loses its leading `0`; a nine-character form
not starting with `0` is returned unchanged; anything else is returned **as
received**, with only a warning logged. -/
def normalizeReceiverPhoneNumber (num : List Char) : NormalizeResult :=
  let normalized := trimL (strip254 num)
  if normalized.take 1 = ['0'] ∧ normalized.length = 10 then
    ⟨normalized.drop 1, false⟩
  else if normalized.length = 9 ∧ normalized.take 1 ≠ ['0'] then
    ⟨normalized, false⟩
  else
    ⟨num, true⟩

/-- An input is coercible when one of the two success branches of
`normalizeReceiverPhoneNumber` applies. -/
def coercibleReceiver (num : List Char) : Bool :=
  let normalized := trimL (strip254 num)
  (normalized.take 1 = ['0'] ∧ normalized.length = 10)
  ∨ (normalized.length = 9 ∧ normalized.take 1 ≠ ['0'])

/-! ### JavaScript numeric primitives -/

/-- JavaScript truncation toward zero (`Rat.floor`/`Rat.ceil` are used rather
than `⌊·⌋`/`⌈·⌉` so that every definition evaluates by kernel reduction). -/
def jsTrunc (q : ℚ) : ℤ :=
  if 0 ≤ q then q.floor else q.ceil

/-- JavaScript `value % 1` (remainder carries the dividend's sign). -/
def jsRem1 (q : ℚ) : ℚ :=
  q - (jsTrunc q : ℚ)

/-- JavaScript `Math.round`: half-integers round toward `+∞`. -/
def jsMathRound (q : ℚ) : ℤ :=
  (q + 1 / 2).floor

/-- `parseFloat(x.toFixed(2))`: round to two decimals (half away from zero on
the decimal expansion; all values in this development are non-negative, where
this is half-up). -/
def round2 (q : ℚ) : ℚ :=
  ((q * 100 + 1 / 2).floor : ℚ) / 100

/-- `customRound` from the source:
`decimalPart = value % 1; integerPart = Math.floor(value);
 return decimalPart >= 0.5 ? integerPart + 1 : integerPart`. -/
def customRound (value : ℚ) : ℚ :=
  let decimalPart := jsRem1 value
  let integerPart := value.floor
  if 1 / 2 ≤ decimalPart then (integerPart + 1 : ℚ) else (integerPart : ℚ)

/-! ### Float ledger (`updateCarrierFloatBalance`) -/

inductive JsErr where
  | insufficientFloat
  | external
deriving DecidableEq, Repr

inductive FloatName where
  | safaricomFloat | africasTalkingFloat
deriving DecidableEq, Repr

/-- The two float documents (`Saf_float/current`, `AT_Float/current`);
`none` models a missing document, `some b` a stored `balance` field. -/
structure Floats where
  saf : Option ℚ
  atF : Option ℚ
deriving DecidableEq, Repr

def Floats.get (f : Floats) : FloatName → Option ℚ
  | .safaricomFloat => f.saf
  | .africasTalkingFloat => f.atF

def Floats.set (f : Floats) : FloatName → Option ℚ → Floats
  | .safaricomFloat, v => { f with saf := v }
  | .africasTalkingFloat, v => { f with atF := v }

/-- `updateCarrierFloatBalance` from the source, run under a Firestore
transaction: a missing document counts as balance `0` (and is initialised to
`0` inside the same transaction); `newFloat = currentFloat + amount`; when
`amount < 0 && newFloat < 0` the transaction throws (and therefore aborts,
leaving the stored balance unchanged); otherwise the new balance is written
and returned. -/
def updateCarrierFloatBalance (f : Floats) (name : FloatName) (amount : ℚ) :
    Except JsErr (Floats × ℚ) :=
  let currentFloat : ℚ := (f.get name).getD 0
  let newFloat := currentFloat + amount
  if amount < 0 ∧ newFloat < 0 then .error .insufficientFloat
  else .ok (f.set name (some newFloat), newFloat)

/-- The effect of one `updateCarrierFloatBalance` call on the store: a thrown
insufficient-float error aborts the transaction, so the store is unchanged. -/
def applyAdjust (f : Floats) (name : FloatName) (amount : ℚ) : Floats :=
  match updateCarrierFloatBalance f name amount with
  | .ok (f', _) => f'
  | .error _ => f

/-! ### Dealer-direct airtime provider (`sendSafaricomAirtime`) -/

/-- The dealer API response body (`response.data`). -/
structure DealerResponse where
  responseStatus : Option (List Char)
  responseDesc : Option (List Char)
deriving DecidableEq, Repr

/-- Outcomes of the external calls made inside `sendSafaricomAirtime`:
the cached-token fetch, the environment-variable presence checks, the
Firestore service-PIN fetch, and the `axios.post` to the airtime URL. -/
structure DealerEnv where
  tokenResult : Except JsErr (List Char)
  hasSenderMsisdn : Bool
  hasAirtimeUrl : Bool
  senderMsisdn : List Char
  pinResult : Except JsErr (List Char)
  postResult : Except JsErr DealerResponse
deriving Repr

/-- The JSON body posted to the dealer API.  The base64 encoding of the
service PIN (`generateServicePin`) is not modelled; the PIN is threaded
through unchanged. -/
structure DealerRequestBody where
  senderMsisdn : List Char
  amount : ℤ
  servicePin : List Char
  receiverMsisdn : List Char
deriving DecidableEq, Repr

/-- Match `/^(R\d{6}\.\d{4}\.\d{6})/` against the response description. -/
def matchTransId (desc : List Char) : Option (List Char) :=
  let c := desc.take 19
  if c.length = 19 ∧ c.take 1 = ['R']
      ∧ ((c.drop 1).take 6).all Char.isDigit
      ∧ (c.drop 7).take 1 = ['.']
      ∧ ((c.drop 8).take 4).all Char.isDigit
      ∧ (c.drop 12).take 1 = ['.']
      ∧ ((c.drop 13).take 6).all Char.isDigit
  then some c else none

/-- Digits of a `List Char` read as a natural number. -/
def parseNatDigits (s : List Char) : ℕ :=
  s.foldl (fun acc c => acc * 10 + (c.toNat - 48)) 0

/-- Parse the capture of `/(\d+(?:\.\d{2})?)/` at the head of `s`. -/
def parseBalanceAt (s : List Char) : Option ℚ :=
  let ds := s.takeWhile Char.isDigit
  if ds = [] then none
  else
    let rest := s.drop ds.length
    let frac := (rest.drop 1).take 2
    if rest.take 1 = ['.'] ∧ frac.length = 2 ∧ frac.all Char.isDigit then
      some ((parseNatDigits ds : ℚ) + (parseNatDigits frac : ℚ) / 100)
    else some ((parseNatDigits ds : ℚ))

/-- Search for `/New balance is Ksh\. (\d+(?:\.\d{2})?)/` in the description. -/
def findBalance : List Char → Option ℚ
  | [] => none
  | c :: rest =>
      if (c :: rest).take 20 = "New balance is Ksh. ".data then
        parseBalanceAt ((c :: rest).drop 20)
      else findBalance rest

/-- The object returned by `sendSafaricomAirtime`, enriched with the request
body that was posted (if the flow reached the `axios.post`), so that the wire
behaviour is observable. -/
structure SafAirtimeResult where
  status : List Char
  respData : Option DealerResponse
  safaricomInternalTransId : Option (List Char)
  newSafaricomFloatBalance : Option ℚ
  requestSent : Option DealerRequestBody
deriving DecidableEq, Repr

/-- `sendSafaricomAirtime` from the source.  The whole body sits inside
`try … catch`, so every thrown error of a sub-call becomes a
`status: 'FAILED'` return; success is exactly `responseStatus === '200'`. -/
def sendSafaricomAirtime (env : DealerEnv) (receiverNumber : List Char) (amount : ℚ) :
    SafAirtimeResult :=
  match env.tokenResult with
  | .error _ => ⟨"FAILED".data, none, none, none, none⟩
  | .ok _token =>
    let normalizedReceiver := (normalizeReceiverPhoneNumber receiverNumber).result
    let adjustedAmount := jsMathRound (amount * 100)
    if ¬ (env.hasSenderMsisdn ∧ env.hasAirtimeUrl) then
      ⟨"FAILED".data, none, none, none, none⟩
    else
      match env.pinResult with
      | .error _ => ⟨"FAILED".data, none, none, none, none⟩
      | .ok pin =>
        let body : DealerRequestBody :=
          ⟨env.senderMsisdn, adjustedAmount, pin, normalizedReceiver⟩
        match env.postResult with
        | .error _ => ⟨"FAILED".data, none, none, none, some body⟩
        | .ok resp =>
          let transId := resp.responseDesc.bind matchTransId
          let newBal := resp.responseDesc.bind findBalance
          if resp.responseStatus = some "200".data then
            ⟨"SUCCESS".data, some resp, transId, newBal, some body⟩
          else
            ⟨"FAILED".data, some resp, none, none, some body⟩

/-! ### Aggregator airtime provider (`sendAfricasTalkingAirtime`) -/

/-- One element of `result.responses`. -/
structure ATRecipientResponse where
  status : Option (List Char)
  errorMessage : Option (List Char)
deriving DecidableEq, Repr

/-- `result` of `africastalking.AIRTIME.send`. -/
structure ATSendResult where
  responses : List ATRecipientResponse
deriving DecidableEq, Repr

/-- Outcomes of the external interactions of `sendAfricasTalkingAirtime`. -/
structure ATEnv where
  hasApiKey : Bool
  hasUsername : Bool
  sendResult : Except JsErr ATSendResult
deriving Repr

/-- The object returned by `sendAfricasTalkingAirtime`, enriched with the
E.164 recipient that was posted (when the flow reached the send). -/
structure ATAirtimeResult where
  status : List Char
  recipientUsed : Option (List Char)
deriving DecidableEq, Repr

/-- `sendAfricasTalkingAirtime` from the source: normalise to E.164, fail
early on an unusable phone shape or missing credentials, otherwise send and
report success exactly when `responses[0].status === 'Sent'` and
`responses[0].errorMessage === 'None'`; exceptions are caught and become
`FAILED`. -/
def sendAfricasTalkingAirtime (env : ATEnv) (phoneNumber : List Char) (_amount : ℚ) :
    ATAirtimeResult :=
  let e164? : Option (List Char) :=
    if phoneNumber.take 1 = ['0'] then
      some ("+254".data ++ phoneNumber.drop 1)
    else if phoneNumber.take 3 = "254".data ∧ phoneNumber.take 1 ≠ ['+'] then
      some ('+' :: phoneNumber)
    else if phoneNumber.take 4 ≠ "+254".data then
      none
    else
      some phoneNumber
  match e164? with
  | none => ⟨"FAILED".data, none⟩
  | some normalizedPhone =>
    if ¬ (env.hasApiKey ∧ env.hasUsername) then ⟨"FAILED".data, none⟩
    else
      match env.sendResult with
      | .error _ => ⟨"FAILED".data, some normalizedPhone⟩
      | .ok result =>
        let response := result.responses.head?
        if response.bind (·.status) = some "Sent".data
            ∧ response.bind (·.errorMessage) = some "None".data then
          ⟨"SUCCESS".data, some normalizedPhone⟩
        else
          ⟨"FAILED".data, some normalizedPhone⟩

/-! ### Daraja reversal client (`initiateDarajaReversal`) -/

/-- Daraja's synchronous answer to a reversal submission. -/
structure RevResponse where
  responseCode : List Char
deriving DecidableEq, Repr

/-- Outcome of the token fetch, credential generation and `axios.post` of
`initiateDarajaReversal`, collapsed into one external result. -/
structure ReversalEnv where
  outcome : Except JsErr RevResponse
deriving Repr

structure ReversalResult where
  success : Bool
deriving DecidableEq, Repr

/-- `initiateDarajaReversal` from the source: any exception is caught and
reported as failure; acceptance is exactly `ResponseCode === '0'`. -/
def initiateDarajaReversal (env : ReversalEnv) : ReversalResult :=
  match env.outcome with
  | .error _ => ⟨false⟩
  | .ok resp => ⟨resp.responseCode = "0".data⟩

/-! ### Bonus engine (`customRound` / `applyBonus`, both source variants) -/

/-- The `airtime_bonuses/current_settings` document; each field may be
missing (`?? 0` in the source). -/
structure BonusSettings where
  safaricomPercentage : Option ℚ
  africastalkingPercentage : Option ℚ
deriving DecidableEq, Repr

/-- `{ total, bonus, rawBonus }` returned by `applyBonus`. -/
structure BonusOutcome where
  total : ℚ
  bonus : ℚ
  rawBonus : ℚ
deriving DecidableEq, Repr

/-- `applyBonus` as in the fulfillment engine (`processAirtimeFulfillment`):
`rawBonus = amount * (percentage / 100)`; with rounding requested the bonus is
`customRound rawBonus`, otherwise the **raw** product is used unrounded. -/
def applyBonus (amount percentage : ℚ) (roundFlag : Bool) : BonusOutcome :=
  let rawBonus := amount * (percentage / 100)
  let bonus := if roundFlag then customRound rawBonus else rawBonus
  ⟨amount + bonus, bonus, rawBonus⟩

/-- `applyBonus` as in the `server.js` callback handler: identical except that
the unrounded branch applies `parseFloat(rawBonus.toFixed(2))`. -/
def applyBonusServer (originalAmount percentage : ℚ) (roundFlag : Bool) : BonusOutcome :=
  let rawBonus := originalAmount * (percentage / 100)
  let bonus := if roundFlag then customRound rawBonus else round2 rawBonus
  ⟨originalAmount + bonus, bonus, rawBonus⟩

/-- Bonus selection in `processAirtimeFulfillment`: Safaricom gets the raw
bonus when its percentage is positive (and `bonusApplied` records
`rawBonus`); the four other supported carriers get the custom-rounded bonus;
otherwise the dispatched amount stays the original and the bonus is `0`.
Returns `(finalAmountToDispatch, bonusApplied)`. -/
def computeBonus (settings : Option BonusSettings) (carrier : Carrier)
    (originalAmountPaid : ℚ) : ℚ × ℚ :=
  let safaricomBonus := (settings.bind (·.safaricomPercentage)).getD 0
  let atBonus := (settings.bind (·.africastalkingPercentage)).getD 0
  if carrier = .safaricom ∧ 0 < safaricomBonus then
    let r := applyBonus originalAmountPaid safaricomBonus false
    (r.total, r.rawBonus)
  else if carrier ∈ [Carrier.airtel, .telkom, .equitel, .faiba] ∧ 0 < atBonus then
    let r := applyBonus originalAmountPaid atBonus true
    (r.total, r.bonus)
  else
    (originalAmountPaid, 0)

/-- Bonus selection in the `server.js` callback handler (same gating, but the
Safaricom bonus goes through `toFixed(2)`). -/
def computeBonusServer (settings : Option BonusSettings) (carrier : Carrier)
    (originalAmount : ℚ) : ℚ × ℚ :=
  let safaricomBonusPercentage := (settings.bind (·.safaricomPercentage)).getD 0
  let atBonusPercentage := (settings.bind (·.africastalkingPercentage)).getD 0
  if carrier = .safaricom ∧ 0 < safaricomBonusPercentage then
    let r := applyBonusServer originalAmount safaricomBonusPercentage false
    (r.total, r.bonus)
  else if carrier ∈ [Carrier.airtel, .telkom, .equitel, .faiba] ∧ 0 < atBonusPercentage then
    let r := applyBonusServer originalAmount atBonusPercentage true
    (r.total, r.bonus)
  else
    (originalAmount, 0)

/-! ### The fulfillment engine (`processAirtimeFulfillment`) -/

inductive TxStatus where
  | pushInitiated
  | mpesaPaymentFailed
  | receivedPendingFulfillment
  | fulfillmentInProgress
  | completedAndFulfilled
  | receivedFulfillmentFailed
  | reversalPendingConfirmation
  | reversalInitiationFailed
  | reversedSuccessfully
  | reversalFailedConfirmation
  | reversalTimedOut
  | criticalFulfillmentError
deriving DecidableEq, Repr

inductive SaleStatus where
  | pendingDispatch | completed | failedDispatchApi
deriving DecidableEq, Repr

/-- Oracle for one run of the engine: outcomes of the dealer call, the
aggregator call and the reversal submission. -/
structure FulfillOracle where
  dealerEnv : DealerEnv
  atEnv : ATEnv
  reversalEnv : ReversalEnv
deriving Repr

/-- The store as seen by one fulfillment run for one transaction id:
the two float documents, the bonus settings, the transaction and sale
documents, and the reversal bookkeeping collections. -/
structure EngineState where
  floats : Floats
  bonusSettings : Option BonusSettings
  txStatus : Option TxStatus
  saleStatus : Option SaleStatus
  reversalPendingRecord : Bool
  reversalFailedRecord : Bool
  reversalAttemptedFlag : Bool
  errorCount : ℕ
deriving Repr

/-- The value returned by `processAirtimeFulfillment`, with the final value of
its `airtimeDispatchStatus` and `airtimeProviderUsed` variables exposed. -/
structure FulfillOutcome where
  success : Bool
  statusLabel : List Char
  airtimeDispatchStatus : List Char
  providerUsed : Option (List Char)
deriving DecidableEq, Repr

/-- The conditional dispatch section of `processAirtimeFulfillment`
(the `if (targetCarrier === 'Safaricom') … else if […].includes …` block):
debits, the dealer attempt, the credit-back, the aggregator fallback and the
4 % commission; every thrown float-ledger error lands in the surrounding
`catch (dispatchError)` which only records a message, so dispatch stays
`FAILED` with the floats as committed so far.  Returns the new floats, the
`airtimeDispatchStatus`, the `airtimeProviderUsed`, and the final dealer
result when the dealer was the provider that answered last. -/
def dispatchSection (o : FulfillOracle) (targetCarrier : Carrier)
    (topupNumber : List Char) (originalAmountPaid finalAmountToDispatch : ℚ)
    (f : Floats) :
    Floats × List Char × Option (List Char) × Option SafAirtimeResult :=
  if targetCarrier = .safaricom then
    match updateCarrierFloatBalance f .safaricomFloat (-finalAmountToDispatch) with
    | .error _ => (f, "FAILED".data, none, none)
    | .ok (f1, _) =>
      let dealerResult := sendSafaricomAirtime o.dealerEnv topupNumber finalAmountToDispatch
      if dealerResult.status = "SUCCESS".data then
        (f1, "COMPLETED".data, some "SafaricomDealer".data, some dealerResult)
      else
        match updateCarrierFloatBalance f1 .safaricomFloat finalAmountToDispatch with
        | .error _ => (f1, "FAILED".data, some "SafaricomDealer".data, some dealerResult)
        | .ok (f2, _) =>
          match updateCarrierFloatBalance f2 .africasTalkingFloat (-finalAmountToDispatch) with
          | .error _ => (f2, "FAILED".data, some "SafaricomDealer".data, some dealerResult)
          | .ok (f3, _) =>
            let atResult := sendAfricasTalkingAirtime o.atEnv topupNumber finalAmountToDispatch
            if atResult.status = "SUCCESS".data then
              let commissionAmount := round2 (originalAmountPaid * (4 / 100))
              match updateCarrierFloatBalance f3 .africasTalkingFloat commissionAmount with
              | .error _ => (f3, "COMPLETED".data, some "AfricasTalkingFallback".data, none)
              | .ok (f4, _) => (f4, "COMPLETED".data, some "AfricasTalkingFallback".data, none)
            else
              (f3, "FAILED".data, some "AfricasTalkingFallback".data, none)
  else if targetCarrier ∈ [Carrier.airtel, .telkom, .equitel, .faiba] then
    match updateCarrierFloatBalance f .africasTalkingFloat (-finalAmountToDispatch) with
    | .error _ => (f, "FAILED".data, none, none)
    | .ok (f1, _) =>
      let atResult := sendAfricasTalkingAirtime o.atEnv topupNumber finalAmountToDispatch
      if atResult.status = "SUCCESS".data then
        let commissionAmount := round2 (originalAmountPaid * (4 / 100))
        match updateCarrierFloatBalance f1 .africasTalkingFloat commissionAmount with
        | .error _ => (f1, "COMPLETED".data, some "AfricasTalkingDirect".data, none)
        | .ok (f2, _) => (f2, "COMPLETED".data, some "AfricasTalkingDirect".data, none)
    else
      (f1, "FAILED".data, some "AfricasTalkingDirect".data, none)
  else
    (f, "FAILED".data, none, none)

/-- `processAirtimeFulfillment` from the source: amount-range gate with
reversal on violation, carrier gate, bonus application, sale initialisation,
the dispatch section, the authoritative Safaricom balance overwrite on dealer
success (the guard `newSafaricomFloatBalance !== undefined` is always true
because the field is initialised to `null`), terminal status writes, and the
reversal flow when dispatch ultimately failed. -/
def processAirtimeFulfillment (o : FulfillOracle)
    (originalAmountPaid : ℚ) (topupNumber : List Char)
    (s : EngineState) : EngineState × FulfillOutcome :=
  let amountInt := jsMathRound originalAmountPaid
  if amountInt < 5 ∨ 5000 < amountInt then
    let s1 := { s with errorCount := s.errorCount + 1,
                       txStatus := some .receivedFulfillmentFailed }
    let reversalResult := initiateDarajaReversal o.reversalEnv
    if reversalResult.success then
      ({ s1 with reversalPendingRecord := true,
                 txStatus := some .reversalPendingConfirmation,
                 reversalAttemptedFlag := true },
       ⟨true, "REVERSAL_INITIATED_INVALID_AMOUNT".data, "FAILED".data, none⟩)
    else
      ({ s1 with reversalFailedRecord := true,
                 txStatus := some .reversalInitiationFailed,
                 reversalAttemptedFlag := true },
       ⟨false, "REVERSAL_FAILED_INVALID_AMOUNT".data, "FAILED".data, none⟩)
  else
    let targetCarrier := detectCarrier topupNumber
    if targetCarrier = .unknown then
      ({ s with errorCount := s.errorCount + 1,
                txStatus := some .receivedFulfillmentFailed },
       ⟨false, "FAILED_UNKNOWN_CARRIER".data, "FAILED".data, none⟩)
    else
      let bonusPair := computeBonus s.bonusSettings targetCarrier originalAmountPaid
      let finalAmountToDispatch := bonusPair.1
      let s2 := { s with saleStatus := some .pendingDispatch }
      let d := dispatchSection o targetCarrier topupNumber
                originalAmountPaid finalAmountToDispatch s2.floats
      let f' := d.1
      let airtimeDispatchStatus := d.2.1
      let providerUsed := d.2.2.1
      let dealerResult? := d.2.2.2
      if airtimeDispatchStatus = "COMPLETED".data then
        let floatsFinal :=
          if targetCarrier = .safaricom ∧ providerUsed = some "SafaricomDealer".data then
            match dealerResult? with
            | some r => f'.set .safaricomFloat r.newSafaricomFloatBalance
            | none => f'
          else f'
        ({ s2 with floats := floatsFinal,
                   saleStatus := some .completed,
                   txStatus := some .completedAndFulfilled },
         ⟨true, "COMPLETED_AND_FULFILLED".data, airtimeDispatchStatus, providerUsed⟩)
      else
        let s3 := { s2 with floats := f',
                            errorCount := s2.errorCount + 1,
                            saleStatus := some .failedDispatchApi,
                            txStatus := some .receivedFulfillmentFailed,
                            reversalAttemptedFlag := true }
        let reversalResult := initiateDarajaReversal o.reversalEnv
        if reversalResult.success then
          ({ s3 with reversalPendingRecord := true,
                     txStatus := some .reversalPendingConfirmation },
           ⟨true, "REVERSAL_INITIATED".data, airtimeDispatchStatus, providerUsed⟩)
        else
          ({ s3 with reversalFailedRecord := true,
                     txStatus := some .reversalInitiationFailed },
           ⟨false, "REVERSAL_INITIATION_FAILED".data, airtimeDispatchStatus, providerUsed⟩)

/-! ### The `server.js` payment-callback handler (`POST /stk-callback`) -/

/-- The stored sale document read by the handler (`salesCollection`). -/
structure SaleDoc where
  status : List Char
  recipient : List Char
  amount : ℚ
  carrier : Carrier
  bonus : ℚ
  totalSent : ℚ
deriving DecidableEq, Repr

/-- The stored transaction document written by the handler. -/
structure TxDoc where
  status : List Char
  secondaryProviderAttempted : Bool
deriving DecidableEq, Repr

/-- Store state touched by the `server.js` callback handler, plus a count of
provider dispatch invocations (calls to `sendSafaricomAirtime` /
`sendAfricasTalkingAirtime`), the observable outbound side effect. -/
structure CbState where
  sale : Option SaleDoc
  tx : Option TxDoc
  bonusSettings : Option BonusSettings
  failedReconRecord : Bool
  errorCount : ℕ
  dispatchCalls : ℕ
deriving Repr

/-- Oracle for one delivery of the callback. -/
structure CbOracle where
  dealerEnv : DealerEnv
  atEnv : ATEnv
  analyticsOk : Bool
deriving Repr

/-- The `server.js` `POST /stk-callback` handler: the **only** gate before
dispatching is the existence of the sale document; when `ResultCode === 0`
the handler recomputes the bonus and dispatches airtime unconditionally,
whatever status the stored documents already carry.  Returns the new state
and the `(resultCode, resultDesc-class)` of the HTTP answer. -/
def stkCallbackServer (o : CbOracle) (resultCode : ℤ) (s : CbState) :
    CbState × ℤ :=
  match s.sale with
  | none => ({ s with errorCount := s.errorCount + 1 }, 0)
  | some txData =>
    if resultCode = 0 then
      let bp := computeBonusServer s.bonusSettings txData.carrier txData.amount
      let finalAmountToDispatch := bp.1
      let bonusAmount := bp.2
      let afterDispatch :
          CbState × List Char × Bool :=
        if txData.carrier = .safaricom then
          let s1 := { s with dispatchCalls := s.dispatchCalls + 1 }
          let primary := sendSafaricomAirtime o.dealerEnv txData.recipient finalAmountToDispatch
          if primary.status = "SUCCESS".data then
            (s1, "COMPLETED".data, false)
          else
            let s2 := { s1 with errorCount := s1.errorCount + 1,
                                dispatchCalls := s1.dispatchCalls + 1 }
            let fallback := sendAfricasTalkingAirtime o.atEnv txData.recipient finalAmountToDispatch
            if fallback.status = "SUCCESS".data then
              (s2, "COMPLETED".data, true)
            else
              ({ s2 with errorCount := s2.errorCount + 1,
                         failedReconRecord := true },
               "AIRTIME_FAILED_CUSTOMER_PAID".data, true)
        else if txData.carrier ∈ [Carrier.airtel, .telkom, .faiba, .equitel] then
          let s1 := { s with dispatchCalls := s.dispatchCalls + 1 }
          let direct := sendAfricasTalkingAirtime o.atEnv txData.recipient finalAmountToDispatch
          if direct.status = "SUCCESS".data then
            (s1, "COMPLETED".data, false)
          else
            ({ s1 with errorCount := s1.errorCount + 1,
                       failedReconRecord := true },
             "AIRTIME_FAILED_CUSTOMER_PAID".data, false)
        else
          ({ s with errorCount := s.errorCount + 1, failedReconRecord := true },
           "AIRTIME_FAILED_UNSUPPORTED_CARRIER".data, false)
      let s3 := afterDispatch.1
      let finalStatus := afterDispatch.2.1
      let secondary := afterDispatch.2.2
      let s4 := if o.analyticsOk then s3 else { s3 with errorCount := s3.errorCount + 1 }
      ({ s4 with
          tx := s4.tx.map fun t =>
            { t with status := finalStatus, secondaryProviderAttempted := secondary },
          sale := s4.sale.map fun sd =>
            { sd with status := finalStatus, bonus := bonusAmount,
                      totalSent := finalAmountToDispatch } }, 0)
    else
      let s1 := { s with errorCount := s.errorCount + 1 }
      ({ s1 with
          tx := s1.tx.map fun t =>
            { t with status := "MPESA_PAYMENT_FAILED".data },
          sale := s1.sale.map fun sd =>
            { sd with status := "MPESA_PAYMENT_FAILED".data } }, 0)

/-! ### Callback ingress HTTP responses (C6) -/

/-- Input classes of `POST /daraja-reversal-result`. -/
structure RevCbInput where
  processingThrows : Bool
  hasOriginalTransactionId : Bool
  txExists : Bool
  resultCode : ℤ
deriving DecidableEq, Repr

/-- HTTP status and body `ResultCode` produced by the
`/daraja-reversal-result` endpoint: the catch block answers
`res.status(500)`, a missing `OriginalTransactionID` answers
`res.status(400)`, every other path answers 200 — always with body
`ResultCode: 0`. -/
def darajaReversalResultResponse (inp : RevCbInput) : ℕ × ℤ :=
  if inp.processingThrows then (500, 0)
  else if ¬ inp.hasOriginalTransactionId then (400, 0)
  else if ¬ inp.txExists then (200, 0)
  else (200, 0)

/-- HTTP status and body `ResultCode` of `/daraja-reversal-timeout`: both the
normal path and the catch block answer `res.json({ResultCode: 0, …})`. -/
def darajaReversalTimeoutResponse (processingThrows : Bool) : ℕ × ℤ :=
  if processingThrows then (200, 0) else (200, 0)

/-- Input classes of the active `POST /stk-callback` ingress. -/
structure StkCbInput where
  malformed : Bool
  saleExists : Bool
  resultCode : ℤ
  updateThrows : Bool
deriving DecidableEq, Repr

/-- HTTP status and body `ResultCode` of the active `/stk-callback` ingress:
every path, including malformed payloads, unknown ids and caught update
errors, answers `res.json({ResultCode: 0, …})`. -/
def stkCallbackResponse (inp : StkCbInput) : ℕ × ℤ :=
  if inp.malformed then (200, 0)
  else if ¬ inp.saleExists then (200, 0)
  else if inp.resultCode = 0 then
    if inp.updateThrows then (200, 0) else (200, 0)
  else (200, 0)

/-! ### Initiation endpoint validation (`POST /stk-push`, C7) -/

/-- The request body; `amount = none` models a missing or non-numeric amount
(`parseFloat` gives `NaN`; a missing field also fails the `!amount` guard —
both are rejected with HTTP 400 before any effect). -/
structure StkPushReq where
  amount : Option ℚ
  phoneNumber : List Char
  recipient : List Char
deriving DecidableEq, Repr

inductive PushDecision where
  | reject400Missing
  | reject400Amount
  | reject400Phone
  | reject400Carrier
  | proceed (amountFloat : ℚ) (cleanedRecipient cleanedCustomerPhone : List Char)
deriving DecidableEq, Repr

/-- The validation ladder of `POST /stk-push` in the fulfillment server,
in source order: required-parameter guard, amount range `[5, 5000]` with
`NaN` rejected, digit-cleaned phone lengths `≥ 9`, supported carrier. -/
def stkPushValidate (r : StkPushReq) : PushDecision :=
  if r.amount = none ∨ r.phoneNumber = [] ∨ r.recipient = [] then .reject400Missing
  else
    match r.amount with
    | none => .reject400Missing
    | some amountFloat =>
      if amountFloat < 5 ∨ 5000 < amountFloat then .reject400Amount
      else
        let cleanedRecipient := r.recipient.filter Char.isDigit
        let cleanedCustomerPhone := r.phoneNumber.filter Char.isDigit
        if cleanedRecipient = [] ∨ cleanedCustomerPhone = []
            ∨ cleanedRecipient.length < 9 ∨ cleanedCustomerPhone.length < 9 then
          .reject400Phone
        else if detectCarrier cleanedRecipient = .unknown then .reject400Carrier
        else .proceed amountFloat cleanedRecipient cleanedCustomerPhone

/-- The handler around the validation: a rejection answers HTTP 400 with no
push and no stored record; on `proceed` the push is sent, and the transaction
record is written only when Daraja accepts (`ResponseCode === '0'`).
Returns `(httpStatus, pushAttempted, recordCreated)`. -/
def stkPushHandler (pushAccepted : Bool) (r : StkPushReq) : ℕ × Bool × Bool :=
  match stkPushValidate r with
  | .proceed _ _ _ =>
      if pushAccepted then (200, true, true) else (500, true, false)
  | _ => (400, false, false)

/-! ### Concrete sample environments and states used in evaluations -/

/-- A dealer environment whose call succeeds (`responseStatus '200'`). -/
def sampleDealerOk : DealerEnv :=
  ⟨.ok "token".data, true, true, "0722000000".data, .ok "1234".data,
   .ok ⟨some "200".data,
        some "R250101.0001.000001 New balance is Ksh. 4900.00".data⟩⟩

/-- A dealer environment whose call reports failure (`responseStatus '500'`). -/
def sampleDealerFail : DealerEnv :=
  ⟨.ok "token".data, true, true, "0722000000".data, .ok "1234".data,
   .ok ⟨some "500".data, some "dealer balance exhausted".data⟩⟩

/-- An aggregator environment whose send succeeds (`Sent` / `None`). -/
def sampleAtOk : ATEnv :=
  ⟨true, true, .ok ⟨[⟨some "Sent".data, some "None".data⟩]⟩⟩

/-- An aggregator environment whose send reports failure. -/
def sampleAtFail : ATEnv :=
  ⟨true, true, .ok ⟨[⟨some "Failed".data, some "insufficient credit".data⟩]⟩⟩

/-- A reversal rail that accepts the submission (`ResponseCode '0'`). -/
def sampleRevAccepted : ReversalEnv := ⟨.ok ⟨"0".data⟩⟩

/-- A reversal rail that rejects the submission. -/
def sampleRevRejected : ReversalEnv := ⟨.ok ⟨"1".data⟩⟩

/-- An engine state with both floats funded and a pending transaction. -/
def sampleEngineState : EngineState :=
  ⟨⟨some 1000, some 1000⟩, none, some .receivedPendingFulfillment, none,
   false, false, false, 0⟩

/-- A stored sale/transaction pair awaiting payment confirmation. -/
def sampleCbState : CbState :=
  ⟨some ⟨"PENDING_MPESA_PAYMENT".data, "0712345678".data, 100, .safaricom, 0, 100⟩,
   some ⟨"PENDING_MPESA_PAYMENT".data, false⟩, none, false, 0, 0⟩

/-- Callback oracle where the dealer dispatch succeeds. -/
def sampleCbOracle : CbOracle := ⟨sampleDealerOk, sampleAtOk, true⟩

/-! ## Helper lemmas -/

theorem ratFloor_eq (q : ℚ) : q.floor = ⌊q⌋ :=
  (Rat.floor_def' q).trans Rat.floor_def.symm

theorem round2_eq (q : ℚ) : round2 q = (⌊q * 100 + 1 / 2⌋ : ℚ) / 100 := by
  rw [round2, ratFloor_eq]

theorem jsMathRound_eq (q : ℚ) : jsMathRound q = ⌊q + 1 / 2⌋ := by
  rw [jsMathRound, ratFloor_eq]

theorem round2_nonneg (q : ℚ) (h : 0 ≤ q) : 0 ≤ round2 q := by
  rw [round2_eq]
  have h1 : (0 : ℤ) ≤ ⌊q * 100 + 1 / 2⌋ := by
    rw [Int.floor_nonneg]
    positivity
  positivity

theorem updateCarrierFloatBalance_ok (f : Floats) (n : FloatName) (d : ℚ)
    (h : ¬ (d < 0 ∧ (f.get n).getD 0 + d < 0)) :
    updateCarrierFloatBalance f n d
      = .ok (f.set n (some ((f.get n).getD 0 + d)), (f.get n).getD 0 + d) := by
  unfold updateCarrierFloatBalance
  rw [if_neg h]

/-- Dealer-success branch of the Safaricom dispatch: one debit, no fallback. -/
theorem dispatchSection_saf_dealer_ok (o : FulfillOracle) (topup : List Char)
    (orig A S T : ℚ) (hS : 0 ≤ S - A)
    (hd : (sendSafaricomAirtime o.dealerEnv topup A).status = "SUCCESS".data) :
    dispatchSection o .safaricom topup orig A ⟨some S, some T⟩
      = (⟨some (S - A), some T⟩, "COMPLETED".data, some "SafaricomDealer".data,
         some (sendSafaricomAirtime o.dealerEnv topup A)) := by
  have h1 : ¬ ((-A : ℚ) < 0 ∧ (Floats.get ⟨some S, some T⟩ .safaricomFloat).getD 0 + -A < 0) := by
    simp only [Floats.get, Option.getD_some]
    rintro ⟨-, h2⟩
    linarith
  unfold dispatchSection
  rw [if_pos rfl, updateCarrierFloatBalance_ok _ _ _ h1]
  simp only [Floats.get, Floats.set, Option.getD_some, hd, if_pos]
  norm_num
  ring

/-- Dealer-failure / aggregator-success branch of the Safaricom dispatch:
debit, credit-back, aggregator debit, commission credit. -/
theorem dispatchSection_saf_fallback_ok (o : FulfillOracle) (topup : List Char)
    (orig A S T : ℚ) (hA : 0 ≤ A) (horig : 0 ≤ orig) (hS : 0 ≤ S - A) (hT : 0 ≤ T - A)
    (hd : (sendSafaricomAirtime o.dealerEnv topup A).status ≠ "SUCCESS".data)
    (hat : (sendAfricasTalkingAirtime o.atEnv topup A).status = "SUCCESS".data) :
    dispatchSection o .safaricom topup orig A ⟨some S, some T⟩
      = (⟨some S, some (T - A + round2 (orig * (4 / 100)))⟩, "COMPLETED".data,
         some "AfricasTalkingFallback".data, none) := by
  have hc : 0 ≤ round2 (orig * (4 / 100)) := round2_nonneg _ (by positivity)
  have h1 : ¬ ((-A : ℚ) < 0 ∧ (Floats.get ⟨some S, some T⟩ .safaricomFloat).getD 0 + -A < 0) := by
    simp only [Floats.get, Option.getD_some]
    rintro ⟨-, h2⟩
    linarith
  unfold dispatchSection
  rw [if_pos rfl, updateCarrierFloatBalance_ok _ _ _ h1]
  simp only [Floats.get, Floats.set, Option.getD_some, hd, if_neg]
  rw [updateCarrierFloatBalance_ok _ _ _ (by
    simp only [Floats.get, Floats.set, Option.getD_some]
    rintro ⟨h2, -⟩
    linarith)]
  simp only [Floats.get, Floats.set, Option.getD_some]
  rw [updateCarrierFloatBalance_ok _ _ _ (by
    simp only [Floats.get, Floats.set, Option.getD_some]
    rintro ⟨-, h2⟩
    linarith)]
  simp only [Floats.get, Floats.set, Option.getD_some, hat, if_pos]
  rw [updateCarrierFloatBalance_ok _ _ _ (by
    simp only [Floats.get, Floats.set, Option.getD_some]
    rintro ⟨h2, -⟩
    linarith)]
  simp only [Floats.get, Floats.set, Option.getD_some]
  norm_num
  ring

/-- Both attempts fail: the home float is back at its initial value and the
aggregator float keeps the (unrefunded) fallback debit. -/
theorem dispatchSection_saf_both_fail (o : FulfillOracle) (topup : List Char)
    (orig A S T : ℚ) (hA : 0 ≤ A) (hS : 0 ≤ S - A) (hT : 0 ≤ T - A)
    (hd : (sendSafaricomAirtime o.dealerEnv topup A).status ≠ "SUCCESS".data)
    (hat : (sendAfricasTalkingAirtime o.atEnv topup A).status ≠ "SUCCESS".data) :
    dispatchSection o .safaricom topup orig A ⟨some S, some T⟩
      = (⟨some S, some (T - A)⟩, "FAILED".data,
         some "AfricasTalkingFallback".data, none) := by
  have h1 : ¬ ((-A : ℚ) < 0 ∧ (Floats.get ⟨some S, some T⟩ .safaricomFloat).getD 0 + -A < 0) := by
    simp only [Floats.get, Option.getD_some]
    rintro ⟨-, h2⟩
    linarith
  unfold dispatchSection
  rw [if_pos rfl, updateCarrierFloatBalance_ok _ _ _ h1]
  simp only [Floats.get, Floats.set, Option.getD_some, hd, if_neg]
  rw [updateCarrierFloatBalance_ok _ _ _ (by
    simp only [Floats.get, Floats.set, Option.getD_some]
    rintro ⟨h2, -⟩
    linarith)]
  simp only [Floats.get, Floats.set, Option.getD_some]
  rw [updateCarrierFloatBalance_ok _ _ _ (by
    simp only [Floats.get, Floats.set, Option.getD_some]
    rintro ⟨-, h2⟩
    linarith)]
  simp only [Floats.get, Floats.set, Option.getD_some, hat, if_neg]
  norm_num
  ring

/-! ## Theorems -/

/-- Claim C2 (code bug): the payment-callback handler is **not** idempotent on
the request-id key.  Delivering the same successful callback twice for a
stored sale dispatches airtime twice — the only pre-dispatch gate is the
existence of the sale document, not its status: after the first delivery the
persisted sale already reads `COMPLETED`, yet the second delivery performs a
second provider dispatch. -/
theorem c2_duplicate_callback_dispatches_twice :
    (stkCallbackServer sampleCbOracle 0 sampleCbState).1.dispatchCalls = 1
    ∧ (stkCallbackServer sampleCbOracle 0 sampleCbState).1.sale.map SaleDoc.status
        = some "COMPLETED".data
    ∧ (stkCallbackServer sampleCbOracle 0
        (stkCallbackServer sampleCbOracle 0 sampleCbState).1).1.dispatchCalls = 2 := by
  decide

/-- Claim C6 (code bug): the body `ResultCode` is always `0` and the
`/daraja-reversal-timeout` and `/stk-callback` ingresses always answer
HTTP 200, but `/daraja-reversal-result` answers HTTP 400 when the callback
lacks `OriginalTransactionID` and HTTP 500 when processing throws — not
HTTP 200 regardless of inner result as claimed. -/
theorem c6_callback_http_status :
    darajaReversalResultResponse ⟨false, false, true, 0⟩ = (400, 0)
    ∧ darajaReversalResultResponse ⟨true, true, true, 0⟩ = (500, 0)
    ∧ (∀ inp : RevCbInput, (darajaReversalResultResponse inp).2 = 0)
    ∧ (∀ b, darajaReversalTimeoutResponse b = (200, 0))
    ∧ (∀ inp : StkCbInput, stkCallbackResponse inp = (200, 0)) := by
  refine ⟨by decide, by decide, ?_, ?_, ?_⟩
  · intro inp
    unfold darajaReversalResultResponse
    split <;> [rfl; split <;> [rfl; split <;> rfl]]
  · intro b
    unfold darajaReversalTimeoutResponse
    split <;> rfl
  · intro inp
    unfold stkCallbackResponse
    split <;> [rfl; skip]
    split <;> [rfl; skip]
    split
    · split <;> rfl
    · rfl

/-- Claim C4 counterexample: with original amount `10.11` (which passes the
range gate since `Math.round(10.11) = 10`), a failed dealer attempt followed
by a successful aggregator fallback leaves the aggregator float at
`1000 − 10.11 + 0.40 = 990.29`: the credited commission is
`parseFloat((10.11 * 0.04).toFixed(2)) = 0.40`, not the claimed exact
`0.04 × 10.11 = 0.4044`. -/
theorem c4_claim_counterexample :
    (dispatchSection ⟨sampleDealerFail, sampleAtOk, sampleRevAccepted⟩ .safaricom
        "0712345678".data (1011 / 100) (1011 / 100) ⟨some 1000, some 1000⟩).1.atF
      = some (99029 / 100)
    ∧ ((99029 / 100 : ℚ) ≠ 1000 - 1011 / 100 + (4 / 100) * (1011 / 100)) := by
  constructor
  · rw [dispatchSection_saf_fallback_ok _ _ _ _ _ _ (by norm_num) (by norm_num)
        (by norm_num) (by norm_num) (by decide) (by decide)]
    rw [round2_eq]
    norm_num
  · norm_num

/-- Claim C5 counterexample: in the fulfillment engine, with a Safaricom
percentage of `5.5` and amount `33`, the bonus is the raw product `1.815`
and the dispatched amount `34.815`; the claimed two-decimal values are
`1.82` and `34.82`, so the engine does **not** keep the home-telco bonus at
two-decimal precision. -/
theorem c5_claim_counterexample :
    computeBonus (some ⟨some (11 / 2), none⟩) .safaricom 33 = (6963 / 200, 363 / 200)
    ∧ round2 (33 * ((11 / 2) / 100)) = 91 / 50
    ∧ ((363 / 200 : ℚ) ≠ 91 / 50)
    ∧ ((6963 / 200 : ℚ) ≠ 33 + 91 / 50) := by
  refine ⟨?_, ?_, by norm_num, by norm_num⟩
  · unfold computeBonus applyBonus
    norm_num
  · rw [round2_eq]
    norm_num

/-- Claim C8 counterexample: `'0712ABCDEF'` is ten characters but not ten
digits, so the claim requires `Unknown`; the code only checks length and the
leading `'0'`, looks up `'712'` and answers `Safaricom`. -/
theorem c8_claim_counterexample :
    (trimL (strip254 "0712ABCDEF".data)).all Char.isDigit = false
    ∧ detectCarrier "0712ABCDEF".data = Carrier.safaricom
    ∧ Carrier.safaricom ≠ Carrier.unknown := by
  decide

/-- Claim C9 counterexample: `'12345'` cannot be coerced to ten national
digits, yet the normaliser does not signal an error — it logs a warning and
returns the input unchanged, and the dealer-dispatch request is then posted
with `receiverMsisdn: '12345'`. -/
theorem c9_claim_counterexample :
    coercibleReceiver "12345".data = false
    ∧ normalizeReceiverPhoneNumber "12345".data = ⟨"12345".data, true⟩
    ∧ (sendSafaricomAirtime sampleDealerOk "12345".data 10).requestSent
        = some ⟨"0722000000".data, 1000, "1234".data, "12345".data⟩ := by
  refine ⟨by decide, by decide, ?_⟩
  have h : jsMathRound ((10 : ℚ) * 100) = 1000 := by
    rw [jsMathRound_eq]
    norm_num
  have h2 : (normalizeReceiverPhoneNumber "12345".data).result = "12345".data := by decide
  unfold sendSafaricomAirtime sampleDealerOk
  simp only [h, h2]
  decide

theorem applyAdjust_nonneg (f : Floats) (n : FloatName) (d : ℚ)
    (hs : 0 ≤ f.saf.getD 0) (ha : 0 ≤ f.atF.getD 0) :
    0 ≤ (applyAdjust f n d).saf.getD 0 ∧ 0 ≤ (applyAdjust f n d).atF.getD 0 := by
  unfold applyAdjust updateCarrierFloatBalance
  by_cases hcond : d < 0 ∧ (f.get n).getD 0 + d < 0
  · rw [if_pos hcond]
    exact ⟨hs, ha⟩
  · rw [if_neg hcond]
    push_neg at hcond
    rcases lt_or_le d 0 with hd | hd
    · have h2 := hcond hd
      cases n <;> simp only [Floats.get, Floats.set, Option.getD_some] at * <;>
        exact ⟨by linarith, by linarith⟩
    · cases n <;> simp only [Floats.get, Floats.set, Option.getD_some] at * <;>
        exact ⟨by linarith, by linarith⟩

/-- Claim C3: the ledger adjustment succeeds and returns
`new-balance = current + delta` exactly when `current + delta ≥ 0` (a missing
record counting as `0`), fails with the insufficient-float error leaving the
store unchanged when `delta < 0` and `current + delta < 0`, and consequently
a stored float balance is never negative after any sequence of adjustments
from a non-negative (or missing) start. -/
theorem c3_float_ledger :
    (∀ (f : Floats) (n : FloatName) (d : ℚ), 0 ≤ (f.get n).getD 0 →
        ((∃ r, updateCarrierFloatBalance f n d = .ok r) ↔ 0 ≤ (f.get n).getD 0 + d))
    ∧ (∀ (f : Floats) (n : FloatName) (d : ℚ), 0 ≤ (f.get n).getD 0 + d →
        updateCarrierFloatBalance f n d
          = .ok (f.set n (some ((f.get n).getD 0 + d)), (f.get n).getD 0 + d))
    ∧ (∀ (f : Floats) (n : FloatName) (d : ℚ), d < 0 → (f.get n).getD 0 + d < 0 →
        updateCarrierFloatBalance f n d = .error .insufficientFloat ∧ applyAdjust f n d = f)
    ∧ (∀ (ops : List (FloatName × ℚ)) (f : Floats),
        0 ≤ f.saf.getD 0 → 0 ≤ f.atF.getD 0 →
        0 ≤ (ops.foldl (fun acc p => applyAdjust acc p.1 p.2) f).saf.getD 0
        ∧ 0 ≤ (ops.foldl (fun acc p => applyAdjust acc p.1 p.2) f).atF.getD 0) := by
  refine ⟨?_, ?_, ?_, ?_⟩
  · intro f n d hcur
    constructor
    · rintro ⟨r, hr⟩
      unfold updateCarrierFloatBalance at hr
      by_cases hcond : d < 0 ∧ (f.get n).getD 0 + d < 0
      · rw [if_pos hcond] at hr
        exact absurd hr (by simp)
      · push_neg at hcond
        rcases lt_or_le d 0 with hd | hd
        · exact hcond hd
        · linarith
    · intro h
      exact ⟨_, updateCarrierFloatBalance_ok f n d (by rintro ⟨-, h2⟩; linarith)⟩
  · intro f n d h
    exact updateCarrierFloatBalance_ok f n d (by rintro ⟨-, h2⟩; linarith)
  · intro f n d h1 h2
    constructor
    · unfold updateCarrierFloatBalance
      rw [if_pos ⟨h1, h2⟩]
    · unfold applyAdjust updateCarrierFloatBalance
      rw [if_pos ⟨h1, h2⟩]
  · intro ops
    induction ops with
    | nil => exact fun f hs ha => ⟨hs, ha⟩
    | cons p rest ih =>
        intro f hs ha
        have h := applyAdjust_nonneg f p.1 p.2 hs ha
        exact ih _ h.1 h.2

/-- Claim C3 witness: a concrete debit through the theorem. -/
theorem c3_float_ledger_witness :
    updateCarrierFloatBalance ⟨some 10, none⟩ .safaricomFloat (-3)
      = .ok (⟨some 7, none⟩, 7) := by
  have h := c3_float_ledger.2.1 ⟨some 10, none⟩ .safaricomFloat (-3)
    (by simp only [Floats.get, Option.getD_some]; norm_num)
  simp only [Floats.get, Floats.set, Option.getD_some] at h
  norm_num at h
  exact h

/-- Claim C1: when the payment was collected (the fulfillment engine runs),
the amount is in range, the carrier is known, and the dispatch section
reports `FAILED` after any fallback, the engine initiates a Daraja reversal:
if the rail accepts, a pending-reversal record exists and the transaction
ends `REVERSAL_PENDING_CONFIRMATION`; if the rail rejects, a reversal-failed
record exists and the transaction ends `REVERSAL_INITIATION_FAILED`.  In
either case `reversalAttempted` is set: no collected payment ends with a
failed dispatch and no reversal attempt on record. -/
theorem c1_failed_dispatch_reversal (o : FulfillOracle) (orig : ℚ) (topup : List Char)
    (s : EngineState)
    (h5 : 5 ≤ jsMathRound orig) (h5000 : jsMathRound orig ≤ 5000)
    (hc : detectCarrier topup ≠ .unknown)
    (hfail : (dispatchSection o (detectCarrier topup) topup orig
        (computeBonus s.bonusSettings (detectCarrier topup) orig).1 s.floats).2.1
      = "FAILED".data) :
    (processAirtimeFulfillment o orig topup s).2.airtimeDispatchStatus = "FAILED".data
    ∧ (processAirtimeFulfillment o orig topup s).1.reversalAttemptedFlag = true
    ∧ ((initiateDarajaReversal o.reversalEnv).success = true →
        (processAirtimeFulfillment o orig topup s).1.txStatus
            = some .reversalPendingConfirmation
        ∧ (processAirtimeFulfillment o orig topup s).1.reversalPendingRecord = true
        ∧ (processAirtimeFulfillment o orig topup s).2.statusLabel
            = "REVERSAL_INITIATED".data)
    ∧ ((initiateDarajaReversal o.reversalEnv).success = false →
        (processAirtimeFulfillment o orig topup s).1.txStatus
            = some .reversalInitiationFailed
        ∧ (processAirtimeFulfillment o orig topup s).1.reversalFailedRecord = true
        ∧ (processAirtimeFulfillment o orig topup s).2.statusLabel
            = "REVERSAL_INITIATION_FAILED".data) := by
  simp only [processAirtimeFulfillment]
  rw [if_neg (show ¬ (jsMathRound orig < 5 ∨ 5000 < jsMathRound orig) by omega)]
  rw [if_neg hc]
  rw [hfail]
  rw [if_neg (show ¬ ("FAILED".data = "COMPLETED".data) by decide)]
  by_cases hrev : (initiateDarajaReversal o.reversalEnv).success
  · rw [if_pos hrev]
    simp [hrev]
  · rw [if_neg hrev]
    simp only [Bool.not_eq_true] at hrev
    simp [hrev]

/-- Claim C1 witness: amount 100 to a Safaricom number, both providers fail,
the rail accepts the reversal — the transaction ends
`REVERSAL_PENDING_CONFIRMATION` with a pending-reversal record. -/
theorem c1_failed_dispatch_reversal_witness :
    (processAirtimeFulfillment ⟨sampleDealerFail, sampleAtFail, sampleRevAccepted⟩
        100 "0712345678".data sampleEngineState).1.txStatus
      = some TxStatus.reversalPendingConfirmation
    ∧ (processAirtimeFulfillment ⟨sampleDealerFail, sampleAtFail, sampleRevAccepted⟩
        100 "0712345678".data sampleEngineState).1.reversalPendingRecord = true
    ∧ (processAirtimeFulfillment ⟨sampleDealerFail, sampleAtFail, sampleRevAccepted⟩
        100 "0712345678".data sampleEngineState).2.airtimeDispatchStatus
      = "FAILED".data := by
  have hround : jsMathRound (100 : ℚ) = 100 := by
    rw [jsMathRound_eq]
    norm_num
  have hcar : detectCarrier "0712345678".data = Carrier.safaricom := by decide
  have hcb : (computeBonus sampleEngineState.bonusSettings
      (detectCarrier "0712345678".data) 100).1 = 100 := by
    rw [hcar]
    simp [computeBonus, sampleEngineState]
  have hfl : sampleEngineState.floats = ⟨some 1000, some 1000⟩ := rfl
  have hfail : (dispatchSection ⟨sampleDealerFail, sampleAtFail, sampleRevAccepted⟩
      (detectCarrier "0712345678".data) "0712345678".data 100
      (computeBonus sampleEngineState.bonusSettings (detectCarrier "0712345678".data) 100).1
      sampleEngineState.floats).2.1 = "FAILED".data := by
    rw [hcb, hcar, hfl]
    rw [dispatchSection_saf_both_fail _ _ _ _ _ _ (by norm_num) (by norm_num) (by norm_num)
        (by decide) (by decide)]
  have h := c1_failed_dispatch_reversal ⟨sampleDealerFail, sampleAtFail, sampleRevAccepted⟩
    100 "0712345678".data sampleEngineState (by rw [hround]; norm_num)
    (by rw [hround]; norm_num) (by rw [hcar]; decide) hfail
  have hrev : (initiateDarajaReversal
      (⟨sampleDealerFail, sampleAtFail, sampleRevAccepted⟩ : FulfillOracle).reversalEnv).success
      = true := by decide
  exact ⟨(h.2.2.1 hrev).1, (h.2.2.1 hrev).2.1, h.1⟩

/-- Claim C4 (amended): for a Safaricom destination the dispatch section
debits the home float by the dispatched amount and tries dealer-direct
first; on dealer success the net home-float change is `−A` with the
aggregator float untouched; on dealer failure the home float is credited
back in full whatever the fallback outcome, and on aggregator-fallback
success the aggregator float nets `−A + round2(0.04 × original)` — the 4 %
commission is credited **rounded to two decimals**, not exact. -/
theorem c4_amended_float_accounting :
    ∀ (o : FulfillOracle) (topup : List Char) (orig A S T : ℚ),
      0 ≤ A → 0 ≤ orig → 0 ≤ S - A → 0 ≤ T - A →
      ((sendSafaricomAirtime o.dealerEnv topup A).status = "SUCCESS".data →
        dispatchSection o .safaricom topup orig A ⟨some S, some T⟩
          = (⟨some (S - A), some T⟩, "COMPLETED".data, some "SafaricomDealer".data,
             some (sendSafaricomAirtime o.dealerEnv topup A)))
      ∧ ((sendSafaricomAirtime o.dealerEnv topup A).status ≠ "SUCCESS".data →
          (dispatchSection o .safaricom topup orig A ⟨some S, some T⟩).1.saf = some S
          ∧ ((sendAfricasTalkingAirtime o.atEnv topup A).status = "SUCCESS".data →
              dispatchSection o .safaricom topup orig A ⟨some S, some T⟩
                = (⟨some S, some (T - A + round2 (orig * (4 / 100)))⟩, "COMPLETED".data,
                   some "AfricasTalkingFallback".data, none))) := by
  intro o topup orig A S T hA horig hS hT
  constructor
  · intro hd
    exact dispatchSection_saf_dealer_ok o topup orig A S T hS hd
  · intro hd
    constructor
    · by_cases hat : (sendAfricasTalkingAirtime o.atEnv topup A).status = "SUCCESS".data
      · rw [dispatchSection_saf_fallback_ok o topup orig A S T hA horig hS hT hd hat]
      · rw [dispatchSection_saf_both_fail o topup orig A S T hA hS hT hd hat]
    · intro hat
      exact dispatchSection_saf_fallback_ok o topup orig A S T hA horig hS hT hd hat

/-- Claim C4 witness: dealer fails, aggregator fallback succeeds with amount
100: the home float is restored and the aggregator float nets
`1000 − 100 + 4 = 904`. -/
theorem c4_amended_float_accounting_witness :
    dispatchSection ⟨sampleDealerFail, sampleAtOk, sampleRevAccepted⟩ .safaricom
        "0712345678".data 100 100 ⟨some 1000, some 1000⟩
      = (⟨some 1000, some 904⟩, "COMPLETED".data,
         some "AfricasTalkingFallback".data, none) := by
  have h := ((c4_amended_float_accounting ⟨sampleDealerFail, sampleAtOk, sampleRevAccepted⟩
      "0712345678".data 100 100 1000 1000 (by norm_num) (by norm_num) (by norm_num)
      (by norm_num)).2 (by decide)).2 (by decide)
  rw [h, round2_eq]
  norm_num

/-- Claim C5 (amended): the fulfillment engine keeps the Safaricom bonus at
**full precision** (`amount × pct/100` unrounded), while the `server.js`
callback variant keeps it with two-decimal precision; for the four non-home
carriers both variants use `customRound`, which on non-negative values is
half-up rounding to the nearest integer; the dispatched amount is always the
original plus the computed bonus, and zero or missing settings give a zero
bonus. -/
theorem c5_amended_bonus :
    (∀ (settings : Option BonusSettings) (a : ℚ),
        0 < (settings.bind (·.safaricomPercentage)).getD 0 →
        computeBonus settings .safaricom a
          = (a + a * ((settings.bind (·.safaricomPercentage)).getD 0 / 100),
             a * ((settings.bind (·.safaricomPercentage)).getD 0 / 100))
        ∧ computeBonusServer settings .safaricom a
          = (a + round2 (a * ((settings.bind (·.safaricomPercentage)).getD 0 / 100)),
             round2 (a * ((settings.bind (·.safaricomPercentage)).getD 0 / 100))))
    ∧ (∀ (settings : Option BonusSettings) (c : Carrier) (a : ℚ),
        c ∈ [Carrier.airtel, .telkom, .equitel, .faiba] →
        0 < (settings.bind (·.africastalkingPercentage)).getD 0 →
        computeBonus settings c a
          = (a + customRound (a * ((settings.bind (·.africastalkingPercentage)).getD 0 / 100)),
             customRound (a * ((settings.bind (·.africastalkingPercentage)).getD 0 / 100)))
        ∧ computeBonusServer settings c a = computeBonus settings c a)
    ∧ (∀ q : ℚ, 0 ≤ q →
        jsRem1 q = q - (⌊q⌋ : ℚ)
        ∧ (jsRem1 q < 1 / 2 → customRound q = (⌊q⌋ : ℚ))
        ∧ (1 / 2 ≤ jsRem1 q → customRound q = (⌊q⌋ : ℚ) + 1))
    ∧ (∀ (c : Carrier) (a : ℚ),
        computeBonus none c a = (a, 0) ∧ computeBonusServer none c a = (a, 0)
        ∧ computeBonus (some ⟨some 0, some 0⟩) c a = (a, 0)
        ∧ computeBonusServer (some ⟨some 0, some 0⟩) c a = (a, 0)) := by
  have hrem : ∀ q : ℚ, 0 ≤ q → jsRem1 q = q - (⌊q⌋ : ℚ) := by
    intro q hq
    unfold jsRem1 jsTrunc
    rw [if_pos hq, ratFloor_eq]
  refine ⟨?_, ?_, ?_, ?_⟩
  · intro settings a h
    constructor
    · unfold computeBonus applyBonus
      rw [if_pos ⟨rfl, h⟩]
      simp
    · unfold computeBonusServer applyBonusServer
      rw [if_pos ⟨rfl, h⟩]
      simp
  · intro settings c a hmem h
    have hcsaf : ¬ (c = Carrier.safaricom) := by
      simp only [List.mem_cons, List.mem_singleton, List.not_mem_nil, or_false] at hmem
      rcases hmem with h1 | h1 | h1 | h1 <;> subst h1 <;> decide
    constructor
    · unfold computeBonus applyBonus
      rw [if_neg (by rintro ⟨h1, -⟩; exact hcsaf h1), if_pos ⟨hmem, h⟩]
      simp
    · unfold computeBonus computeBonusServer applyBonus applyBonusServer
      rw [if_neg (by rintro ⟨h1, -⟩; exact hcsaf h1), if_pos ⟨hmem, h⟩,
          if_neg (by rintro ⟨h1, -⟩; exact hcsaf h1), if_pos ⟨hmem, h⟩]
      simp
  · intro q hq
    refine ⟨hrem q hq, ?_, ?_⟩
    · intro hlt
      unfold customRound
      rw [if_neg (by rw [jsRem1] at hlt ⊢; exact not_le.mpr hlt), ratFloor_eq]
    · intro hge
      unfold customRound
      rw [if_pos (by rw [jsRem1] at hge ⊢; exact hge), ratFloor_eq]
  · intro c a
    refine ⟨?_, ?_, ?_, ?_⟩
    · unfold computeBonus applyBonus
      rw [if_neg (by rintro ⟨-, h⟩; simp at h), if_neg (by rintro ⟨-, h⟩; simp at h)]
    · unfold computeBonusServer applyBonusServer
      rw [if_neg (by rintro ⟨-, h⟩; simp at h), if_neg (by rintro ⟨-, h⟩; simp at h)]
    · unfold computeBonus applyBonus
      rw [if_neg (by rintro ⟨-, h⟩; simp at h), if_neg (by rintro ⟨-, h⟩; simp at h)]
    · unfold computeBonusServer applyBonusServer
      rw [if_neg (by rintro ⟨-, h⟩; simp at h), if_neg (by rintro ⟨-, h⟩; simp at h)]

/-- Claim C5 witness: 10 % on amount 50 gives bonus 5 and dispatch 55 in
both variants (here the raw product has at most two decimals, so they
agree). -/
theorem c5_amended_bonus_witness :
    computeBonus (some ⟨some 10, some 10⟩) .safaricom 50 = (55, 5)
    ∧ computeBonusServer (some ⟨some 10, some 10⟩) .safaricom 50 = (55, 5) := by
  have h := c5_amended_bonus.1 (some ⟨some 10, some 10⟩) 50
    (by show (0 : ℚ) < 10; norm_num)
  simp only [Option.some_bind, Option.getD_some] at h
  rw [round2_eq] at h
  norm_num at h
  exact h

/-- `replace(/^(\\+254|254)/, '0')` on a `+254…` input. -/
theorem strip254_plus (s : List Char) :
    strip254 ('+' :: '2' :: '5' :: '4' :: s) = '0' :: s := by
  simp [strip254]

/-- `replace(/^(\\+254|254)/, '0')` on a `254…` input. -/
theorem strip254_254 (s : List Char) :
    strip254 ('2' :: '5' :: '4' :: s) = '0' :: s := by
  simp [strip254]

/-- The replacement leaves an already-national `0…` input unchanged. -/
theorem strip254_zero (s : List Char) :
    strip254 ('0' :: s) = '0' :: s := by
  simp [strip254]

/-- Claim C8 (amended): the classifier strips a leading `+254`/`254` to the
`0…` national form; any input whose normalised form is not exactly **ten
characters** starting with `'0'` (the code does not require digits) maps to
`Unknown`; otherwise the three characters after the `'0'` are looked up, and
the lookup returns the matching label for every prefix in the five defined
sets and `Unknown` for everything else. -/
theorem c8_amended_classifier :
    (∀ s : List Char,
        detectCarrier ('+' :: '2' :: '5' :: '4' :: s) = detectCarrier ('0' :: s)
        ∧ detectCarrier ('2' :: '5' :: '4' :: s) = detectCarrier ('0' :: s))
    ∧ (∀ s : List Char,
        (trimL (strip254 s)).length ≠ 10 ∨ (trimL (strip254 s)).take 1 ≠ ['0'] →
        detectCarrier s = .unknown)
    ∧ (∀ s : List Char, (trimL (strip254 s)).length = 10 →
        (trimL (strip254 s)).take 1 = ['0'] →
        detectCarrier s = carrierOfPre (((trimL (strip254 s)).drop 1).take 3))
    ∧ (∀ p ∈ safaricomSet, carrierOfPre p = .safaricom)
    ∧ (∀ p ∈ airtelSet, carrierOfPre p = .airtel)
    ∧ (∀ p ∈ telkomSet, carrierOfPre p = .telkom)
    ∧ (∀ p ∈ equitelSet, carrierOfPre p = .equitel)
    ∧ (∀ p ∈ faibaSet, carrierOfPre p = .faiba)
    ∧ (∀ p : List Char, p ∉ safaricomSet → p ∉ airtelSet → p ∉ telkomSet →
        p ∉ equitelSet → p ∉ faibaSet → carrierOfPre p = .unknown) := by
  refine ⟨?_, ?_, ?_, by decide, by decide, by decide, by decide, by decide, ?_⟩
  · intro s
    constructor
    · simp only [detectCarrier, strip254_plus, strip254_zero]
    · simp only [detectCarrier, strip254_254, strip254_zero]
  · intro s h
    simp only [detectCarrier]
    rw [if_pos h]
  · intro s h1 h2
    simp only [detectCarrier]
    rw [if_neg (by simp [h1, h2])]
  · intro p h1 h2 h3 h4 h5
    unfold carrierOfPre
    rw [if_neg h1, if_neg h2, if_neg h3, if_neg h4, if_neg h5]

/-- Claim C8 witness: a five-character input is `Unknown` via the theorem. -/
theorem c8_amended_classifier_witness :
    detectCarrier "07123".data = Carrier.unknown :=
  c8_amended_classifier.2.1 "07123".data (by decide)

/-- Claim C9 (amended): on every input it cannot coerce, the dealer-direct
normaliser does **not** signal an error: it logs a warning and returns the
input unchanged; on coercible inputs it returns a nine-character result with
no warning. -/
theorem c9_amended_normalizer :
    ∀ num : List Char,
      (coercibleReceiver num = false →
        normalizeReceiverPhoneNumber num = ⟨num, true⟩)
      ∧ (coercibleReceiver num = true →
        (normalizeReceiverPhoneNumber num).warned = false
        ∧ (normalizeReceiverPhoneNumber num).result.length = 9) := by
  intro num
  constructor
  · intro h
    rw [coercibleReceiver, decide_eq_false_iff_not] at h
    push_neg at h
    rw [normalizeReceiverPhoneNumber]
    rw [if_neg (by rintro ⟨h1, h2⟩; exact h.1 h1 h2)]
    rw [if_neg (by rintro ⟨h1, h2⟩; exact h2 (h.2 h1))]
  · intro h
    rw [coercibleReceiver, decide_eq_true_eq] at h
    rcases h with ⟨h1, h2⟩ | ⟨h1, h2⟩
    · rw [normalizeReceiverPhoneNumber, if_pos ⟨h1, h2⟩]
      refine ⟨rfl, ?_⟩
      simp [List.length_drop, h2]
    · have hne : ¬ ((trimL (strip254 num)).take 1 = ['0']
          ∧ (trimL (strip254 num)).length = 10) := by
        rintro ⟨-, h10⟩
        rw [h1] at h10
        exact absurd h10 (by norm_num)
      rw [normalizeReceiverPhoneNumber, if_neg hne, if_pos ⟨h1, h2⟩]
      exact ⟨rfl, h1⟩

/-- Claim C9 witness: the uncoercible input `'12345'` comes back unchanged
with the warning flag, via the theorem. -/
theorem c9_amended_normalizer_witness :
    normalizeReceiverPhoneNumber "12345".data = ⟨"12345".data, true⟩ :=
  (c9_amended_normalizer "12345".data).1 (by decide)

/-- Claim C7: the initiation endpoint accepts an amount exactly when it lies
in `[5, 5000]`: any missing, non-numeric or out-of-range amount is rejected
with HTTP 400 before any payment push or record write; amounts 5 and 5000
pass the amount gate (and with valid phones and a supported carrier the
request proceeds), while 4 and 5001 are rejected. -/
theorem c7_amount_validation :
    (∀ (pushAccepted : Bool) (r : StkPushReq),
        (∀ a, r.amount = some a → a < 5 ∨ 5000 < a) →
        stkPushHandler pushAccepted r = (400, false, false))
    ∧ (∀ (q : ℚ) (ph rec : List Char), ph ≠ [] → rec ≠ [] → 5 ≤ q → q ≤ 5000 →
        stkPushValidate ⟨some q, ph, rec⟩ = .reject400Phone
        ∨ stkPushValidate ⟨some q, ph, rec⟩ = .reject400Carrier
        ∨ stkPushValidate ⟨some q, ph, rec⟩
            = .proceed q (rec.filter Char.isDigit) (ph.filter Char.isDigit))
    ∧ stkPushValidate ⟨some 5, "0712345678".data, "0712345678".data⟩
        = .proceed 5 "0712345678".data "0712345678".data
    ∧ stkPushValidate ⟨some 5000, "0712345678".data, "0712345678".data⟩
        = .proceed 5000 "0712345678".data "0712345678".data
    ∧ (∀ pushAccepted : Bool,
        stkPushHandler pushAccepted ⟨some 4, "0712345678".data, "0712345678".data⟩
          = (400, false, false))
    ∧ (∀ pushAccepted : Bool,
        stkPushHandler pushAccepted ⟨some 5001, "0712345678".data, "0712345678".data⟩
          = (400, false, false)) := by
  refine ⟨?_, ?_, by decide, by decide,
    by intro pushAccepted; cases pushAccepted <;> decide,
    by intro pushAccepted; cases pushAccepted <;> decide⟩
  · rintro pushAccepted ⟨amount, ph, rec⟩ h
    unfold stkPushHandler stkPushValidate
    cases amount with
    | none => rw [if_pos (Or.inl rfl)]
    | some a =>
        have ha := h a rfl
        by_cases hmiss : (some a = none ∨ ph = ([] : List Char) ∨ rec = ([] : List Char))
        · rw [if_pos hmiss]
        · rw [if_neg hmiss]
          simp only
          rw [if_pos ha]
  · intro q ph rec hph hrec h5 h5000
    unfold stkPushValidate
    rw [if_neg (by
      rintro (h1 | h1 | h1)
      · exact absurd h1 (by simp)
      · exact hph h1
      · exact hrec h1)]
    simp only
    rw [if_neg (by rintro (h1 | h1) <;> linarith)]
    split
    · exact Or.inl rfl
    · split
      · exact Or.inr (Or.inl rfl)
      · exact Or.inr (Or.inr rfl)

/-- Claim C7 witness: concrete boundary cases through the theorem. -/
theorem c7_amount_validation_witness :
    stkPushHandler true ⟨some 4, "0712345678".data, "0712345678".data⟩
      = (400, false, false)
    ∧ stkPushValidate ⟨some 5, "0712345678".data, "0712345678".data⟩
      = .proceed 5 "0712345678".data "0712345678".data := by
  refine ⟨c7_amount_validation.1 true ⟨some 4, "0712345678".data, "0712345678".data⟩ ?_,
    c7_amount_validation.2.2.1⟩
  rintro a ha
  injection ha with ha
  subst ha
  norm_num

/-- Claim C10: both dispatch functions are total at their interface — for
every environment outcome (token failure, missing credentials, post
exception, any response shape) the returned `status` is `'SUCCESS'` or
`'FAILED'`, never a propagated exception; `'SUCCESS'` holds exactly when the
dealer response has `responseStatus '200'`, respectively when the
aggregator's first recipient response is `'Sent'` with error `'None'`. -/
theorem c10_dispatch_interface_total :
    ∀ (denv : DealerEnv) (aenv : ATEnv) (r p : List Char) (amt amt2 : ℚ),
      ((sendSafaricomAirtime denv r amt).status = "SUCCESS".data
        ∨ (sendSafaricomAirtime denv r amt).status = "FAILED".data)
      ∧ ((sendSafaricomAirtime denv r amt).status = "SUCCESS".data ↔
          ((∃ tk, denv.tokenResult = .ok tk)
           ∧ denv.hasSenderMsisdn = true ∧ denv.hasAirtimeUrl = true
           ∧ (∃ pin, denv.pinResult = .ok pin)
           ∧ (∃ resp, denv.postResult = .ok resp
               ∧ resp.responseStatus = some "200".data)))
      ∧ ((sendAfricasTalkingAirtime aenv p amt2).status = "SUCCESS".data
        ∨ (sendAfricasTalkingAirtime aenv p amt2).status = "FAILED".data)
      ∧ ((sendAfricasTalkingAirtime aenv p amt2).status = "SUCCESS".data ↔
          ((p.take 1 = ['0'] ∨ (p.take 3 = "254".data ∧ p.take 1 ≠ ['+'])
             ∨ p.take 4 = "+254".data)
           ∧ aenv.hasApiKey = true ∧ aenv.hasUsername = true
           ∧ (∃ res, aenv.sendResult = .ok res
               ∧ res.responses.head?.bind (·.status) = some "Sent".data
               ∧ res.responses.head?.bind (·.errorMessage) = some "None".data))) := by
  have hSF : ("FAILED".data : List Char) ≠ "SUCCESS".data := by decide
  intro denv aenv r p amt amt2
  refine ⟨?_, ?_, ?_, ?_⟩
  · unfold sendSafaricomAirtime
    rcases denv with ⟨tr, hs, hu, sm, pr, po⟩
    rcases tr with e | tk
    · exact Or.inr rfl
    · simp only
      split
      · exact Or.inr rfl
      · rcases pr with e | pin
        · exact Or.inr rfl
        · simp only
          rcases po with e | resp
          · exact Or.inr rfl
          · simp only
            split
            · exact Or.inl rfl
            · exact Or.inr rfl
  · rcases denv with ⟨tr, hs, hu, sm, pr, po⟩
    rcases tr with e | tk
    · simp [sendSafaricomAirtime, hSF]
    · rcases pr with e | pin
      · cases hs <;> cases hu <;> simp [sendSafaricomAirtime, hSF]
      · rcases po with e | resp
        · cases hs <;> cases hu <;> simp [sendSafaricomAirtime, hSF]
        · by_cases hr : resp.responseStatus = some "200".data <;>
            cases hs <;> cases hu <;> simp [sendSafaricomAirtime, hSF, hr]
  · unfold sendAfricasTalkingAirtime
    rcases aenv with ⟨hk, hn, sr⟩
    simp only
    split
    · exact Or.inr rfl
    · split
      · exact Or.inr rfl
      · rcases sr with e | res
        · exact Or.inr rfl
        · simp only
          split
          · exact Or.inl rfl
          · exact Or.inr rfl
  · rcases aenv with ⟨hk, hn, sr⟩
    by_cases h1 : p.take 1 = ['0']
    · rcases sr with e | res
      · cases hk <;> cases hn <;> simp [sendAfricasTalkingAirtime, hSF, h1]
      · by_cases hok : res.responses.head?.bind (·.status) = some "Sent".data
            ∧ res.responses.head?.bind (·.errorMessage) = some "None".data
        · cases hk <;> cases hn <;>
            simp [sendAfricasTalkingAirtime, hSF, h1, hok.1, hok.2]
        · cases hk <;> cases hn <;>
            simp [sendAfricasTalkingAirtime, hSF, h1, hok]
    · by_cases h2 : p.take 3 = "254".data ∧ p.take 1 ≠ ['+']
      · rcases sr with e | res
        · cases hk <;> cases hn <;> simp [sendAfricasTalkingAirtime, hSF, h1, h2.1, h2.2]
        · by_cases hok : res.responses.head?.bind (·.status) = some "Sent".data
              ∧ res.responses.head?.bind (·.errorMessage) = some "None".data
          · cases hk <;> cases hn <;>
              simp [sendAfricasTalkingAirtime, hSF, h1, h2.1, h2.2, hok.1, hok.2]
          · cases hk <;> cases hn <;>
              simp [sendAfricasTalkingAirtime, hSF, h1, h2.1, h2.2, hok]
      · by_cases h3 : p.take 4 = "+254".data
        · rcases sr with e | res
          · cases hk <;> cases hn <;> simp [sendAfricasTalkingAirtime, hSF, h1, h2, h3]
          · by_cases hok : res.responses.head?.bind (·.status) = some "Sent".data
                ∧ res.responses.head?.bind (·.errorMessage) = some "None".data
            · cases hk <;> cases hn <;>
                simp [sendAfricasTalkingAirtime, hSF, h1, h2, h3, hok.1, hok.2]
            · cases hk <;> cases hn <;>
                simp [sendAfricasTalkingAirtime, hSF, h1, h2, h3, hok]
        · cases hk <;> cases hn <;> simp [sendAfricasTalkingAirtime, hSF, h1, h2, h3]

end DaimaPay
